import Mathlib

/-
Verification development for the kratt inference-orchestration core.

Shallow embedding of the Python sources:
  - kratt/core/web_search.py   (normalize_url)
  - kratt/core/tools.py        (search_files, find_files, execute_tool)
  - kratt/lc/rag.py            (RAGManager.ingest_text / retrieve)
  - kratt/core/worker.py       (OllamaWorker.run and its strategy handlers,
                                modelled as an event-trace semantics)
  - kratt/ui/main_window.py    (the transcript/history operations)

External collaborators (Ollama, LangChain, Playwright, the file system,
Python's regex engine) are modelled as oracles: records of functions whose
results the embedded code consumes, quantified over in the theorems.
Python exceptions are modelled with Except; a Python function that cannot
let an exception escape is embedded as a total function.

In string literals, \x27 is the ASCII apostrophe and \x7b/\x7d are braces.
-/

namespace Kratt

/-! ## Python string helpers

Python's str.lower / str.endswith / str.strip restricted to what the
sources use.  Strings are handled through their character lists so that
the lemmas below stay elementary. -/

/-- Python `str.lower()` (ASCII-wise, which is all the sources need). -/
def pyLower (s : String) : String := String.mk (s.toList.map Char.toLower)

/-- Python `s.endswith(t)` for a single suffix. -/
def pyEndsWith (s t : String) : Bool := decide (t.toList <:+ s.toList)

/-- Python `s.rstrip()`. -/
def pyRstrip (s : String) : String :=
  String.mk ((s.toList.reverse.dropWhile Char.isWhitespace).reverse)

/-- Python `s.strip()` (structural, unlike `String.trim`, so that concrete
witnesses evaluate). -/
def pyStrip (s : String) : String :=
  String.mk (((s.toList.dropWhile Char.isWhitespace).reverse.dropWhile
    Char.isWhitespace).reverse)

/-! ## kratt/core/web_search.py : normalize_url

`urlparse` is Python stdlib (an external collaborator); its output is
modelled as the record of the URL components the source reads. -/

/-- The result of Python's `urllib.parse.urlparse` on a URL string:
scheme, netloc (host), path, query, fragment. -/
structure ParsedUrl where
  scheme : String
  netloc : String
  path : String
  query : String
  fragment : String
  deriving DecidableEq, Repr

/-- The `skip_ext` tuple of `normalize_url`. -/
def skip_ext : List String :=
  [".jpg", ".png", ".gif", ".pdf", ".zip", ".css", ".js", ".svg", ".webp"]

/-- `normalize_url(url, domain)` from kratt/core/web_search.py, with the
`urlparse(url)` call already applied (the `parsed` argument). -/
def normalize_url (parsed : ParsedUrl) (domain : String) : Option String :=
  if ¬(parsed.scheme = "http" ∨ parsed.scheme = "https") ∨ parsed.netloc ≠ domain then
    none
  else if skip_ext.any (fun ext => pyEndsWith (pyLower parsed.path) ext) then
    none
  else
    some (parsed.scheme ++ "://" ++ parsed.netloc ++ parsed.path)

/-! ## kratt/core/tools.py : search_files, find_files, execute_tool

The file system and the regex engine are oracles.  A `FileEntry` is one
item yielded by `Path.rglob`; its `name` is the path relative to the
resolved search path (which is how `search_files` prints it), and its
`lines` field is what iterating the opened file yields, or `.error` when
`open`/read raises IOError/OSError. -/

/-- One entry yielded by `search_path.rglob(file_pattern)`. -/
structure FileEntry where
  name : String
  isFile : Bool
  lines : Except String (List String)

/-- Oracle for `Path(...).expanduser().resolve()` (which may raise),
`is_dir`, `rglob`, and `re.compile` (`none` models `re.error`; a compiled
regex is abstracted to its per-line `search` test). -/
structure FsOracle where
  resolve : String → Except String String
  isDir : String → Bool
  rglob : String → String → List FileEntry
  regex : String → Option (String → Bool)

/-- The inner line loop of `search_files`: line numbers start at 1, a hit
appends `"rel:line_num:line.rstrip()"`, and the loop breaks once
`max_results` results have been collected. -/
def scanLines (matcher : String → Bool) (rel : String) (maxr : Nat) :
    List String → Nat → List String → List String
  | [], _, acc => acc
  | l :: rest, n, acc =>
    if matcher l then
      let acc2 := acc ++ [rel ++ ":" ++ toString n ++ ":" ++ pyRstrip l]
      if maxr ≤ acc2.length then acc2 else scanLines matcher rel maxr rest (n + 1) acc2
    else scanLines matcher rel maxr rest (n + 1) acc

/-- The outer file loop of `search_files`: non-files are skipped,
`processed_files` is incremented per file, the loop breaks when the
result list is already full, and unreadable files are skipped.
Returns (results, processed_files). -/
def scanFiles (matcher : String → Bool) (maxr : Nat) :
    List FileEntry → List String → Nat → List String × Nat
  | [], acc, processed => (acc, processed)
  | f :: rest, acc, processed =>
    if f.isFile then
      let processed2 := processed + 1
      if maxr ≤ acc.length then (acc, processed2)
      else
        match f.lines with
        | .error _ => scanFiles matcher maxr rest acc processed2
        | .ok ls => scanFiles matcher maxr rest (scanLines matcher f.name maxr ls 1 acc) processed2
    else scanFiles matcher maxr rest acc processed

/-- `"{i}. {item}\n"` lines of the result formatting loops. -/
def numberedFrom : Nat → List String → String
  | _, [] => ""
  | i, x :: xs => toString i ++ ". " ++ x ++ "\n" ++ numberedFrom (i + 1) xs

/-- `search_files(pattern, path=".", file_pattern="*", max_results=20)` from
kratt/core/tools.py.  The body sits inside `try ... except Exception`, so the
only escape is the `"Error during search: ..."` string; `re.error` on compile
falls back to the literal pattern (`re.escape` makes `search` a substring
test). -/
def search_files (fs : FsOracle) (pattern path file_pattern : String)
    (max_results : Nat) : String :=
  match fs.resolve path with
  | .error e => "Error during search: " ++ e
  | .ok search_path =>
    if ¬ fs.isDir search_path then
      "Error: \x27" ++ path ++ "\x27 is not a valid directory."
    else if pyStrip pattern = "" then
      "Error: Search pattern cannot be empty."
    else
      let matcher := match fs.regex pattern with
        | some r => r
        | none => fun line => decide (pattern.toList <:+: line.toList)
      let rp := scanFiles matcher max_results (fs.rglob search_path file_pattern) [] 0
      if rp.1 = [] then
        "No matches found for pattern \x27" ++ pattern ++ "\x27 in " ++ search_path
      else
        "Search results:\n" ++ numberedFrom 1 rp.1 ++
          (if 0 < rp.2 ∧ max_results ≤ rp.1.length then
            "\n(Showing " ++ toString max_results ++
              " results. Adjust max_results to see more.)"
          else "")

/-- The collection loop of `find_files`: files only, formatted as
`str(filepath)` (resolved path joined with the relative name), breaking
once full. -/
def collectFound (search_path : String) (maxr : Nat) :
    List FileEntry → List String → List String
  | [], acc => acc
  | f :: rest, acc =>
    if f.isFile then
      let acc2 := acc ++ [search_path ++ "/" ++ f.name]
      if maxr ≤ acc2.length then acc2 else collectFound search_path maxr rest acc2
    else collectFound search_path maxr rest acc

/-- `find_files(name_pattern, path=".", max_results=20)` from
kratt/core/tools.py. -/
def find_files (fs : FsOracle) (name_pattern path : String) (max_results : Nat) :
    String :=
  match fs.resolve path with
  | .error e => "Error during search: " ++ e
  | .ok search_path =>
    if ¬ fs.isDir search_path then
      "Error: \x27" ++ path ++ "\x27 is not a valid directory."
    else if pyStrip name_pattern = "" then
      "Error: File name pattern cannot be empty."
    else
      let results := collectFound search_path max_results
        (fs.rglob search_path name_pattern) []
      if results = [] then
        "No files found matching \x27" ++ name_pattern ++ "\x27 in " ++ search_path
      else
        "Found files:\n" ++ numberedFrom 1 results ++
          (if max_results ≤ results.length then
            "\n(Showing " ++ toString max_results ++
              " results. Adjust max_results to see more.)"
          else "")

/-! ### execute_tool and Python call binding

`execute_tool(tool_name, **kwargs)` forwards `kwargs` to the tool function;
the binding of keyword arguments against the function signature is Python
call semantics: an unexpected keyword or a missing required argument raises
TypeError before the tool body runs. -/

/-- A Python value passed as a keyword argument (the tool schemas declare
strings and integers only). -/
inductive PyVal where
  | str (s : String)
  | int (n : Nat)
  deriving DecidableEq, Repr

/-- A Python exception escaping a call. -/
inductive PyError where
  | typeError (msg : String)
  deriving DecidableEq, Repr

/-- The declared parameter names of `search_files`. -/
def search_files_params : List String := ["pattern", "path", "file_pattern", "max_results"]

/-- The declared parameter names of `find_files`. -/
def find_files_params : List String := ["name_pattern", "path", "max_results"]

/-- Python keyword-argument binding for `f(**kwargs)`: an unexpected keyword
raises TypeError (checked while binding keywords), then a missing required
parameter raises TypeError. -/
def bindCall (fname : String) (params required : List String)
    (kwargs : List (String × PyVal)) : Except PyError Unit :=
  if kwargs.any (fun kv => ¬ params.contains kv.1) then
    .error (.typeError (fname ++ "() got an unexpected keyword argument"))
  else if required.any (fun r => ¬ kwargs.any (fun kv => kv.1 = r)) then
    .error (.typeError (fname ++ "() missing a required argument"))
  else
    .ok ()

/-- Extract a string keyword argument, falling back to the signature default.
(A value of the wrong dynamic type would end in the tool body's catch-all
and still come back as a string; that corner is not exercised here.) -/
def kwStr (kwargs : List (String × PyVal)) (key dflt : String) : String :=
  match kwargs.lookup key with
  | some (.str s) => s
  | _ => dflt

/-- Extract an integer keyword argument, falling back to the default. -/
def kwInt (kwargs : List (String × PyVal)) (key : String) (dflt : Nat) : Nat :=
  match kwargs.lookup key with
  | some (.int n) => n
  | _ => dflt

/-- `execute_tool(tool_name, **kwargs)` from kratt/core/tools.py:
dispatches to `search_files`/`find_files` (raising TypeError when the
keyword binding fails) and returns `"Unknown tool: <name>"` for any other
name. -/
def execute_tool (fs : FsOracle) (tool_name : String)
    (kwargs : List (String × PyVal)) : Except PyError String :=
  if tool_name = "search_files" then
    match bindCall "search_files" search_files_params ["pattern"] kwargs with
    | .error e => .error e
    | .ok _ => .ok (search_files fs (kwStr kwargs "pattern" "")
        (kwStr kwargs "path" ".") (kwStr kwargs "file_pattern" "*")
        (kwInt kwargs "max_results" 20))
  else if tool_name = "find_files" then
    match bindCall "find_files" find_files_params ["name_pattern"] kwargs with
    | .error e => .error e
    | .ok _ => .ok (find_files fs (kwStr kwargs "name_pattern" "")
        (kwStr kwargs "path" ".") (kwInt kwargs "max_results" 20))
  else
    .ok ("Unknown tool: " ++ tool_name)

/-! ## kratt/lc/rag.py : RAGManager

The splitter, the embedding model and the FAISS store are external
collaborators, modelled by a `RagOracle` over an abstract vector-store
type `VS`.  `ingest_text`'s try block covers only the embedding/FAISS
construction; `retrieve`'s try block covers everything after the
`vector_store` check, so both are total at the worker boundary. -/

/-- A document returned by the retriever: source metadata plus content. -/
structure RagDoc where
  source : String
  content : String

/-- Oracle for RecursiveCharacterTextSplitter, OllamaEmbeddings/FAISS
construction (which may raise) and the retriever invocation (which may
raise). -/
structure RagOracle (VS : Type) where
  split : List (String × String) → List (String × String)
  buildStore : List (String × String) → Except String VS
  retrieveDocs : VS → String → Except String (List RagDoc)

/-- The `RAGManager` state: `self.vector_store`, `None` until a successful
ingestion. -/
structure RAGManager (VS : Type) where
  vector_store : Option VS

/-- `RAGManager.__init__`: `self.vector_store = None`. -/
def RAGManager.mk0 (VS : Type) : RAGManager VS := ⟨none⟩

/-- `RAGManager.ingest_text(text_data)` from kratt/lc/rag.py: returns
False on empty input or empty splits, True after a successful store build,
False (store untouched) when the build raises. -/
def RAGManager.ingest_text (o : RagOracle VS) (m : RAGManager VS)
    (text_data : List (String × String)) : Bool × RAGManager VS :=
  if text_data = [] then (false, m)
  else
    let splits := o.split text_data
    if splits = [] then (false, m)
    else
      match o.buildStore splits with
      | .ok vs => (true, ⟨some vs⟩)
      | .error _ => (false, m)

/-- The `context_str` accumulation loop of `RAGManager.retrieve`
(`\x7b` and `\x7d` are literal braces). -/
def formatDocs : Nat → List RagDoc → String
  | _, [] => ""
  | i, d :: ds =>
    "[Source " ++ toString (i + 1) ++ ": " ++ d.source ++ "]\n" ++
      (d.content.replace "\n" " ") ++ "\n\n" ++ formatDocs (i + 1) ds

/-- `RAGManager.retrieve(query)` from kratt/lc/rag.py: empty string when no
store exists or the retriever raises. -/
def RAGManager.retrieve (o : RagOracle VS) (m : RAGManager VS) (query : String) :
    String :=
  match m.vector_store with
  | none => ""
  | some vs =>
    match o.retrieveDocs vs query with
    | .error _ => ""
    | .ok docs => formatDocs 0 docs

/-! ## kratt/core/worker.py : OllamaWorker

The worker is embedded as an event-trace semantics: `OllamaWorker.run`
becomes a function from an environment (the results of every external
call, plus the asynchronously-set stop flag) and the worker's
configuration to the list of Qt signals it emits, in emission order.

The stop flag is cooperative: `_stop_requested` is read at the source's
checkpoints, modelled as `stop k` for the k-th read.  A streaming call is
modelled as the list of chunks it yields followed by an optional exception
(an exception raised by the dispatch itself is the `chunks = []` case).
`improve_search_query`, `search_duckduckgo`, `filter_search_results` and
`WebScraper.scrape_urls` catch all their exceptions internally
(kratt/core/web_search.py), so their results are plain oracle values;
`build_agent` and `RAGManager.ingest_text`'s splitter run outside any
handler of the strategy bodies, so they may raise to `run`'s top-level
handler. -/

/-- A signal emitted by the worker: `new_token`, `status_update`,
`finished(duration, token_count)` or `stopped`. -/
inductive Event where
  | token (s : String)
  | status (s : String)
  | finished (duration : Nat) (tokens : Nat)
  | stopped
  deriving DecidableEq, Repr

/-- A chunk yielded by `agent.stream(..., stream_mode="messages")`:
whether `chunk[0]` is an AIMessage, its content, its `tool_calls` names
and its `type` attribute. -/
structure AgentChunk where
  isAI : Bool
  content : String
  toolCalls : List String
  msgType : String
  deriving DecidableEq, Repr

/-- A DuckDuckGo search result (title/url/snippet). -/
structure SearchResult where
  title : String
  url : String
  snippet : String
  deriving DecidableEq, Repr

/-- The environment of one `OllamaWorker.run` call: the stop-flag history
and the results of every external interaction, quantified over in the
theorems. -/
structure Env where
  stop : Nat → Bool
  duration : Nat
  buildAgent : Except String Unit
  agentChunks : List AgentChunk
  agentStreamExc : Option String
  improvedQuery : String
  searchResults : List SearchResult
  filteredResults : List SearchResult
  scraped : List (String × String)
  ingestOk : Except String Bool
  retrieved : String
  ragChunks : List String
  ragStreamExc : Option String
  visionChunks : List String
  visionStreamExc : Option String

/-- The constructor arguments of `OllamaWorker` that influence strategy
selection (model names, history and system prompt only shape the prompts
sent to the oracles, not the emitted trace). -/
structure WorkerCfg where
  imagePath : Option String
  userText : String
  webSearchEnabled : Bool

/-- Python truthiness of `self.image_path : str | None`. -/
def truthyOpt : Option String → Bool
  | some s => !(s == "")
  | none => false

/-- The events of one chunk of the `_run_agent` stream loop (the stop
check excluded): an AIMessage with content emits either an `Executing`
status (tool calls present) or a blank status plus the content token; a
`tool`-typed chunk then emits a `Thinking` status. -/
def agentChunkEvents (c : AgentChunk) : List Event :=
  (if c.isAI && !(c.content == "") then
    match c.toolCalls with
    | n :: _ => [Event.status ("*Executing " ++ n ++ "...*")]
    | [] => [Event.status "", Event.token c.content]
  else []) ++
  (if c.msgType == "tool" then [Event.status "*Thinking...*"] else [])

/-- Whether one chunk of the `_run_agent` loop increments `token_count`. -/
def emitsToken (c : AgentChunk) : Bool :=
  c.isAI && !(c.content == "") && c.toolCalls.isEmpty

/-- The `_run_agent` stream loop over the yielded chunks: each iteration
polls the stop flag (emitting `stopped` and aborting when set) and then
processes the chunk.  Returns the emitted events and, unless stopped,
the final `(token_count, next checkpoint index)`. -/
def agentLoop (stop : Nat → Bool) :
    List AgentChunk → Nat → Nat → List Event × Option (Nat × Nat)
  | [], tc, k => ([], some (tc, k))
  | c :: rest, tc, k =>
    if stop k then ([Event.stopped], none)
    else
      let p := agentLoop stop rest (if emitsToken c then tc + 1 else tc) (k + 1)
      (agentChunkEvents c ++ p.1, p.2)

/-- The shared shape of the `chat.stream` loop of `_run_rag_search` and
the `ollama.chat` loop of `_run_vision_legacy`: poll the stop flag, then
emit the chunk's content as a token and count it. -/
def streamLoop (stop : Nat → Bool) :
    List String → Nat → Nat → List Event × Option (Nat × Nat)
  | [], tc, k => ([], some (tc, k))
  | c :: rest, tc, k =>
    if stop k then ([Event.stopped], none)
    else
      let p := streamLoop stop rest (tc + 1) (k + 1)
      (Event.token c :: p.1, p.2)

/-- `OllamaWorker._run_agent`, entered with the current `token_count` and
checkpoint index (0 when called from `run`, 1 when reached through the RAG
fallback).  Returns the emitted events and the exception, if any, that
escapes to `run`'s handler (`build_agent` runs outside the local try). -/
def runAgent (env : Env) (tc k : Nat) : List Event × Option String :=
  match env.buildAgent with
  | .error e => ([], some e)
  | .ok _ =>
    let p := agentLoop env.stop env.agentChunks tc k
    match p.2 with
    | none => (p.1, none)
    | some r =>
      match env.agentStreamExc with
      | some e => (p.1 ++ [Event.token ("Agent Error: " ++ e), Event.finished 0 0], none)
      | none => (p.1 ++ [Event.finished env.duration r.1], none)

/-- `OllamaWorker._run_vision_legacy`: the whole body sits inside the
local try, so nothing escapes. -/
def runVision (env : Env) : List Event × Option String :=
  let p := streamLoop env.stop env.visionChunks 0 0
  match p.2 with
  | none => (p.1, none)
  | some r =>
    match env.visionStreamExc with
    | some e => (p.1 ++ [Event.token ("Vision error: " ++ e), Event.finished 0 0], none)
    | none => (p.1 ++ [Event.finished env.duration r.1], none)

/-- The grounding-context computation of `_run_rag_search`: when scraping
yielded data, ingest it (the split/embed step may raise, escaping to
`run`'s handler) and retrieve on success; the empty string otherwise. -/
def ragContext (env : Env) : Except String String :=
  if env.scraped ≠ [] then
    match env.ingestOk with
    | .error e => .error e
    | .ok success => .ok (if success then env.retrieved else "")
  else .ok ""

/-- `OllamaWorker._run_rag_search`: query rewrite, stop checkpoint, web
search (falling back to `_run_agent` on an empty result set), filter,
stop checkpoint, scrape, ingest/retrieve (ingestion may raise outside the
local try), grounding-context assembly, then the streaming generation
loop guarded by the local try. -/
def runRag (env : Env) : List Event × Option String :=
  let evs0 := [Event.status "*Optimizing query...*"]
  if env.stop 0 then (evs0 ++ [Event.stopped], none)
  else
    let evs1 := evs0 ++ [Event.status "*Searching...*"]
    if env.searchResults = [] then
      let pa := runAgent env 0 1
      (evs1 ++ [Event.token "No search results found."] ++ pa.1, pa.2)
    else
      let _urls := ((if env.filteredResults ≠ [] then env.filteredResults
        else env.searchResults).take 3).map (fun r => r.url)
      if env.stop 1 then (evs1 ++ [Event.stopped], none)
      else
        let evs2 := evs1 ++ [Event.status "*Reading content...*",
          Event.status "*Analyzing content...*"]
        match ragContext env with
        | .error e => (evs2, some e)
        | .ok ctx0 =>
          let _context := if ctx0 = "" then
            "No readable content could be extracted from the search results."
          else ctx0
          let evs3 := evs2 ++ [Event.status "*Generating response...*"]
          let p := streamLoop env.stop env.ragChunks 0 2
          match p.2 with
          | none => (evs3 ++ p.1, none)
          | some r =>
            match env.ragStreamExc with
            | some e => (evs3 ++ p.1 ++
                [Event.token ("RAG Generation Error: " ++ e), Event.finished 0 0], none)
            | none => (evs3 ++ p.1 ++ [Event.finished env.duration r.1], none)

/-- `OllamaWorker.run`: strategy selection in source order (vision when an
image is attached, RAG when web search is enabled and the stripped user
text is non-empty, agent otherwise), with the top-level handler turning
any escaped exception into a `**System Error**` token plus
`finished(0, 0)`. -/
def OllamaWorker.run (env : Env) (cfg : WorkerCfg) : List Event :=
  let p :=
    if truthyOpt cfg.imagePath then runVision env
    else if cfg.webSearchEnabled && !(pyStrip cfg.userText == "") then runRag env
    else runAgent env 0 0
  match p.2 with
  | none => p.1
  | some e => p.1 ++ [Event.token ("\n\n**System Error:** " ++ e), Event.finished 0 0]

/-! ## kratt/ui/main_window.py : the transcript operations

The history is a list of `{"role": ..., "content": ...}` dicts. -/

/-- One transcript entry. -/
structure Turn where
  role : String
  content : String
  deriving DecidableEq, Repr

/-- `MainWindow.new_chat`: a no-op while processing, otherwise replaces the
history with a single fresh system Turn carrying the current system
prompt. -/
def new_chat (isProcessing : Bool) (systemPrompt : String) (h : List Turn) :
    List Turn :=
  if isProcessing then h else [⟨"system", systemPrompt⟩]

/-- `MainWindow._open_settings`: a no-op while processing or when the
dialog is not accepted; when accepted and the history holds at most one
Turn, rewrites `history[0]["content"]` to the new system prompt in place
(the source indexes `history[0]`, so the history is non-empty there). -/
def open_settings (isProcessing accepted : Bool) (newPrompt : String)
    (h : List Turn) : List Turn :=
  if isProcessing then h
  else if accepted then
    if h.length ≤ 1 then
      match h with
      | [] => []
      | t :: rest => { t with content := newPrompt } :: rest
    else h
  else h

/-- `MainWindow.send_message` (its history effect): appends a user Turn
with the stripped text unless the input is empty without an image or a
run is in flight. -/
def send_message (isProcessing : Bool) (rawText : String) (hasImage : Bool)
    (h : List Turn) : List Turn :=
  let text := pyStrip rawText
  if (text = "" ∧ ¬ hasImage) ∨ isProcessing then h
  else h ++ [⟨"user", text⟩]

/-- `MainWindow._finalize_stream` (its history effect): appends the
buffered assistant Turn. -/
def finalize_stream (buffer : String) (h : List Turn) : List Turn :=
  h ++ [⟨"assistant", buffer⟩]

/-- `MainWindow._on_worker_stopped` (its history effect): appends the
partial assistant Turn when the buffer is non-empty. -/
def on_worker_stopped (buffer : String) (h : List Turn) : List Turn :=
  if buffer ≠ "" then h ++ [⟨"assistant", buffer⟩] else h

/-! ## The spec's bounded tool-calling loop (claim C2) -/

/-- A response of the tool-calling generation call: either tool
invocations or a final text. -/
inductive ModelResponse where
  | toolCalls (names : List String)
  | finalText (t : String)
  deriving DecidableEq, Repr

/-- A terminal outcome of the loop. -/
inductive SpecOutcome where
  | completed (msg : String)
  | errored (msg : String)
  deriving DecidableEq, Repr

/-- Modelled from the spec: the hand-rolled tool-augmented agent loop.
`build_agent` (kratt/lc/agent.py) delegates the loop to LangChain's
external `create_agent` factory, so the iteration-capped loop the spec
describes (§4.1, tool-augmented strategy) is not under src/.  Following
the spec's words: a bounded iteration loop with a hard cap of 5; each
iteration dispatches; tool calls lead back to dispatch; a response with
no tool calls is the final answer, terminating as completed; reaching the
cap without a final answer emits the sentinel message "max iterations
reached" and terminates as completed, not as an error.  `model i` is the
response of the i-th dispatch; the result is the number of dispatches
performed and the outcome. -/
def specAgentLoopAux (model : Nat → ModelResponse) :
    Nat → Nat → Nat × SpecOutcome
  | 0, i => (i, SpecOutcome.completed "max iterations reached")
  | fuel + 1, i =>
    match model i with
    | ModelResponse.finalText t => (i + 1, SpecOutcome.completed t)
    | ModelResponse.toolCalls _ => specAgentLoopAux model fuel (i + 1)

/-- Modelled from the spec: the iteration cap of the tool-augmented
strategy ("a bounded iteration loop, hard cap of 5 iterations"). -/
def AGENT_MAX_ITERATIONS : Nat := 5

/-- Modelled from the spec: run the bounded agent loop from the first
iteration. -/
def specAgentLoop (model : Nat → ModelResponse) : Nat × SpecOutcome :=
  specAgentLoopAux model AGENT_MAX_ITERATIONS 0

/-! ## Terminal-event machinery -/

/-- Whether a signal is terminal (`finished` or `stopped`). -/
def isTerminal : Event → Bool
  | Event.finished _ _ => true
  | Event.stopped => true
  | _ => false

/-- A trace with no terminal signal. -/
def NoTerm (l : List Event) : Prop := ∀ e ∈ l, isTerminal e = false

/-- A trace that ends with its unique terminal signal. -/
def OneTerm (l : List Event) : Prop :=
  ∃ pre t, l = pre ++ [t] ∧ isTerminal t = true ∧ NoTerm pre

lemma noTerm_nil : NoTerm [] := by intro e he; cases he

lemma noTerm_append {a b : List Event} (h1 : NoTerm a) (h2 : NoTerm b) :
    NoTerm (a ++ b) := by
  intro e he
  rcases List.mem_append.1 he with h | h
  · exact h1 e h
  · exact h2 e h

lemma noTerm_token (s : String) : NoTerm [Event.token s] := by
  intro e he
  rcases List.mem_singleton.1 he with rfl
  rfl

lemma noTerm_status (s : String) : NoTerm [Event.status s] := by
  intro e he
  rcases List.mem_singleton.1 he with rfl
  rfl

lemma oneTerm_append {a b : List Event} (h1 : NoTerm a) (h2 : OneTerm b) :
    OneTerm (a ++ b) := by
  obtain ⟨pre, t, hb, ht, hpre⟩ := h2
  exact ⟨a ++ pre, t, by rw [hb, List.append_assoc], ht, noTerm_append h1 hpre⟩

lemma oneTerm_snoc {a : List Event} {t : Event} (h : NoTerm a)
    (ht : isTerminal t = true) : OneTerm (a ++ [t]) :=
  ⟨a, t, rfl, ht, h⟩

lemma oneTerm_stopped : OneTerm [Event.stopped] :=
  ⟨[], Event.stopped, rfl, rfl, noTerm_nil⟩

lemma agentChunkEvents_noTerm (c : AgentChunk) : NoTerm (agentChunkEvents c) := by
  intro e he
  unfold agentChunkEvents at he
  rcases List.mem_append.1 he with h | h
  · by_cases hc : (c.isAI && !(c.content == "")) = true
    · rw [if_pos hc] at h
      cases htc : c.toolCalls with
      | nil =>
        rw [htc] at h
        simp only [List.mem_cons, List.not_mem_nil, or_false] at h
        rcases h with rfl | rfl <;> rfl
      | cons n ns =>
        rw [htc] at h
        rcases List.mem_singleton.1 h with rfl
        rfl
    · rw [if_neg hc] at h; cases h
  · by_cases hm : (c.msgType == "tool") = true
    · rw [if_pos hm] at h
      rcases List.mem_singleton.1 h with rfl
      rfl
    · rw [if_neg hm] at h; cases h

lemma agentLoop_cons (stop : Nat → Bool) (c : AgentChunk) (rest : List AgentChunk)
    (tc k : Nat) :
    agentLoop stop (c :: rest) tc k =
      if stop k then ([Event.stopped], none)
      else (agentChunkEvents c ++
          (agentLoop stop rest (if emitsToken c then tc + 1 else tc) (k + 1)).1,
        (agentLoop stop rest (if emitsToken c then tc + 1 else tc) (k + 1)).2) := rfl

lemma streamLoop_cons (stop : Nat → Bool) (c : String) (rest : List String)
    (tc k : Nat) :
    streamLoop stop (c :: rest) tc k =
      if stop k then ([Event.stopped], none)
      else (Event.token c :: (streamLoop stop rest (tc + 1) (k + 1)).1,
        (streamLoop stop rest (tc + 1) (k + 1)).2) := rfl

lemma agentLoop_term (stop : Nat → Bool) (chunks : List AgentChunk) :
    ∀ tc k,
      ((agentLoop stop chunks tc k).2 = none →
        OneTerm (agentLoop stop chunks tc k).1) ∧
      ((agentLoop stop chunks tc k).2.isSome →
        NoTerm (agentLoop stop chunks tc k).1) := by
  induction chunks with
  | nil =>
    intro tc k
    refine ⟨fun h => (by simp [agentLoop] at h), fun _ => noTerm_nil⟩
  | cons c rest ih =>
    intro tc k
    rw [agentLoop_cons]
    by_cases hs : stop k = true
    · rw [if_pos hs]
      exact ⟨fun _ => oneTerm_stopped, fun h => (by simp at h)⟩
    · rw [if_neg hs]
      have hrec := ih (if emitsToken c then tc + 1 else tc) (k + 1)
      refine ⟨fun h => ?_, fun h => ?_⟩
      · exact oneTerm_append (agentChunkEvents_noTerm c) (hrec.1 h)
      · exact noTerm_append (agentChunkEvents_noTerm c) (hrec.2 h)

lemma streamLoop_term (stop : Nat → Bool) (chunks : List String) :
    ∀ tc k,
      ((streamLoop stop chunks tc k).2 = none →
        OneTerm (streamLoop stop chunks tc k).1) ∧
      ((streamLoop stop chunks tc k).2.isSome →
        NoTerm (streamLoop stop chunks tc k).1) := by
  induction chunks with
  | nil =>
    intro tc k
    refine ⟨fun h => (by simp [streamLoop] at h), fun _ => noTerm_nil⟩
  | cons c rest ih =>
    intro tc k
    rw [streamLoop_cons]
    by_cases hs : stop k = true
    · rw [if_pos hs]
      exact ⟨fun _ => oneTerm_stopped, fun h => (by simp at h)⟩
    · rw [if_neg hs]
      have hrec := ih (tc + 1) (k + 1)
      refine ⟨fun h => ?_, fun h => ?_⟩
      · exact oneTerm_append (noTerm_token c) (hrec.1 h)
      · exact noTerm_append (noTerm_token c) (hrec.2 h)

lemma noTerm_errFin {a : List Event} (s : String) (h : NoTerm a) :
    OneTerm (a ++ [Event.token s, Event.finished 0 0]) := by
  rw [show [Event.token s, Event.finished 0 0] =
    [Event.token s] ++ [Event.finished 0 0] from rfl, ← List.append_assoc]
  exact oneTerm_snoc (noTerm_append h (noTerm_token _)) rfl

lemma runAgent_term (env : Env) (tc k : Nat) :
    ((runAgent env tc k).2 = none → OneTerm (runAgent env tc k).1) ∧
    ((runAgent env tc k).2.isSome → NoTerm (runAgent env tc k).1) := by
  unfold runAgent
  rcases hb : env.buildAgent with e | u
  · dsimp only
    exact ⟨fun h => by simp at h, fun _ => noTerm_nil⟩
  · dsimp only
    have hl := agentLoop_term env.stop env.agentChunks tc k
    rcases hp : (agentLoop env.stop env.agentChunks tc k).2 with _ | r
    · dsimp only
      exact ⟨fun _ => hl.1 hp, fun h => by simp at h⟩
    · have hnt : NoTerm (agentLoop env.stop env.agentChunks tc k).1 :=
        hl.2 (by rw [hp]; rfl)
      rcases he : env.agentStreamExc with _ | e
      · dsimp only
        exact ⟨fun _ => oneTerm_snoc hnt rfl, fun h => by simp at h⟩
      · dsimp only
        exact ⟨fun _ => noTerm_errFin _ hnt, fun h => by simp at h⟩

lemma runVision_term (env : Env) :
    ((runVision env).2 = none → OneTerm (runVision env).1) ∧
    ((runVision env).2.isSome → NoTerm (runVision env).1) := by
  unfold runVision
  dsimp only
  have hl := streamLoop_term env.stop env.visionChunks 0 0
  rcases hp : (streamLoop env.stop env.visionChunks 0 0).2 with _ | r
  · dsimp only
    exact ⟨fun _ => hl.1 hp, fun h => by simp at h⟩
  · have hnt : NoTerm (streamLoop env.stop env.visionChunks 0 0).1 :=
      hl.2 (by rw [hp]; rfl)
    rcases he : env.visionStreamExc with _ | e
    · dsimp only
      exact ⟨fun _ => oneTerm_snoc hnt rfl, fun h => by simp at h⟩
    · dsimp only
      exact ⟨fun _ => noTerm_errFin _ hnt, fun h => by simp at h⟩

lemma noTerm_two (s1 s2 : String) : NoTerm [Event.status s1, Event.status s2] := by
  intro e he
  rcases List.mem_cons.1 he with rfl | he2
  · rfl
  · rcases List.mem_singleton.1 he2 with rfl
    rfl

lemma runRag_term (env : Env) :
    ((runRag env).2 = none → OneTerm (runRag env).1) ∧
    ((runRag env).2.isSome → NoTerm (runRag env).1) := by
  unfold runRag
  dsimp only
  have hpre1 : NoTerm ([Event.status "*Optimizing query...*"] ++
      [Event.status "*Searching...*"]) :=
    noTerm_append (noTerm_status _) (noTerm_status _)
  by_cases h0 : env.stop 0 = true
  · rw [if_pos h0]
    exact ⟨fun _ => oneTerm_append (noTerm_status _) oneTerm_stopped,
      fun h => (by simp at h)⟩
  · rw [if_neg h0]
    by_cases hsr : env.searchResults = []
    · rw [if_pos hsr]
      dsimp only
      have ha := runAgent_term env 0 1
      refine ⟨fun h => ?_, fun h => ?_⟩
      · exact oneTerm_append (noTerm_append hpre1 (noTerm_token _)) (ha.1 h)
      · exact noTerm_append (noTerm_append hpre1 (noTerm_token _)) (ha.2 h)
    · rw [if_neg hsr]
      by_cases h1 : env.stop 1 = true
      · rw [if_pos h1]
        exact ⟨fun _ => oneTerm_append hpre1 oneTerm_stopped,
          fun h => (by simp at h)⟩
      · rw [if_neg h1]
        have hpre2 : NoTerm (([Event.status "*Optimizing query...*"] ++
            [Event.status "*Searching...*"]) ++
            [Event.status "*Reading content...*",
              Event.status "*Analyzing content...*"]) :=
          noTerm_append hpre1 (noTerm_two _ _)
        rcases hctx : ragContext env with e | ctx0
        · dsimp only
          exact ⟨fun h => (by simp at h), fun _ => hpre2⟩
        · dsimp only
          have hpre3 : NoTerm ((([Event.status "*Optimizing query...*"] ++
              [Event.status "*Searching...*"]) ++
              [Event.status "*Reading content...*",
                Event.status "*Analyzing content...*"]) ++
              [Event.status "*Generating response...*"]) :=
            noTerm_append hpre2 (noTerm_status _)
          have hl := streamLoop_term env.stop env.ragChunks 0 2
          rcases hp : (streamLoop env.stop env.ragChunks 0 2).2 with _ | r
          · dsimp only
            exact ⟨fun _ => oneTerm_append hpre3 (hl.1 hp), fun h => (by simp at h)⟩
          · have hnt : NoTerm (streamLoop env.stop env.ragChunks 0 2).1 :=
              hl.2 (by rw [hp]; rfl)
            rcases he : env.ragStreamExc with _ | e
            · dsimp only
              exact ⟨fun _ => oneTerm_snoc (noTerm_append hpre3 hnt) rfl,
                fun h => (by simp at h)⟩
            · dsimp only
              exact ⟨fun _ => noTerm_errFin _ (noTerm_append hpre3 hnt),
                fun h => (by simp at h)⟩

/-- C1: every run of `OllamaWorker.run` — whichever strategy is selected
and however the environment behaves (streams succeeding, failing or being
cancelled at any checkpoint) — emits exactly one terminal signal
(`finished` or `stopped`), as the last event of the trace, so no token or
status signal follows it. -/
theorem C1_run_emits_exactly_one_terminal (env : Env) (cfg : WorkerCfg) :
    ∃ pre t, OllamaWorker.run env cfg = pre ++ [t] ∧ isTerminal t = true ∧
      ∀ e ∈ pre, isTerminal e = false := by
  unfold OllamaWorker.run
  dsimp only
  by_cases hv : truthyOpt cfg.imagePath = true
  · rw [if_pos hv]
    have h := runVision_term env
    rcases hx : (runVision env).2 with _ | e
    · dsimp only
      exact h.1 hx
    · dsimp only
      exact noTerm_errFin _ (h.2 (by rw [hx]; rfl))
  · rw [if_neg hv]
    by_cases hw : (cfg.webSearchEnabled && !(pyStrip cfg.userText == "")) = true
    · rw [if_pos hw]
      have h := runRag_term env
      rcases hx : (runRag env).2 with _ | e
      · dsimp only
        exact h.1 hx
      · dsimp only
        exact noTerm_errFin _ (h.2 (by rw [hx]; rfl))
    · rw [if_neg hw]
      have h := runAgent_term env 0 0
      rcases hx : (runAgent env 0 0).2 with _ | e
      · dsimp only
        exact h.1 hx
      · dsimp only
        exact noTerm_errFin _ (h.2 (by rw [hx]; rfl))

lemma agentLoop_noStop (stop : Nat → Bool) (hstop : ∀ k, stop k = false)
    (chunks : List AgentChunk) : ∀ tc k,
    agentLoop stop chunks tc k =
      ((chunks.map agentChunkEvents).flatten,
        some (tc + chunks.countP emitsToken, k + chunks.length)) := by
  induction chunks with
  | nil => intro tc k; simp [agentLoop]
  | cons c rest ih =>
    intro tc k
    rw [agentLoop_cons, if_neg (by simp [hstop k]), ih]
    simp only [List.map_cons, List.flatten_cons, List.countP_cons, List.length_cons,
      Prod.mk.injEq, Option.some.injEq, true_and]
    cases hc : emitsToken c <;> simp [hc] <;> omega

lemma streamLoop_noStop (stop : Nat → Bool) (hstop : ∀ k, stop k = false)
    (chunks : List String) : ∀ tc k,
    streamLoop stop chunks tc k =
      (chunks.map Event.token, some (tc + chunks.length, k + chunks.length)) := by
  induction chunks with
  | nil => intro tc k; simp [streamLoop]
  | cons c rest ih =>
    intro tc k
    rw [streamLoop_cons, if_neg (by simp [hstop k]), ih]
    simp only [List.map_cons, List.length_cons, Prod.mk.injEq, Option.some.injEq,
      List.cons.injEq, true_and]
    omega

/-- C2: in the tool-augmented strategy's bounded loop (modelled from the
spec, see `specAgentLoopAux`), a model that returns tool calls on every
dispatch drives the loop through exactly 5 iterations, after which it
terminates with the `completed` outcome carrying the sentinel message
"max iterations reached"; the loop is a total function, so it never
raises. -/
theorem C2_agent_loop_cap (model : Nat → ModelResponse)
    (h : ∀ i, ∃ names, model i = ModelResponse.toolCalls names) :
    specAgentLoop model = (5, SpecOutcome.completed "max iterations reached") := by
  have aux : ∀ fuel i, specAgentLoopAux model fuel i =
      (i + fuel, SpecOutcome.completed "max iterations reached") := by
    intro fuel
    induction fuel with
    | zero => intro i; simp [specAgentLoopAux]
    | succ n ih =>
      intro i
      obtain ⟨names, hm⟩ := h i
      rw [show specAgentLoopAux model (n + 1) i =
        (match model i with
          | ModelResponse.finalText t => (i + 1, SpecOutcome.completed t)
          | ModelResponse.toolCalls _ => specAgentLoopAux model n (i + 1)) from rfl,
        hm]
      rw [ih (i + 1)]
      simp only [Prod.mk.injEq, and_true]
      omega
  have h5 : specAgentLoop model = specAgentLoopAux model AGENT_MAX_ITERATIONS 0 := rfl
  rw [h5, aux, AGENT_MAX_ITERATIONS]

/-- Witness for C2 at a model that always requests one tool call. -/
theorem C2_agent_loop_cap_witness :
    specAgentLoop (fun _ => ModelResponse.toolCalls ["search_files"]) =
      (5, SpecOutcome.completed "max iterations reached") :=
  C2_agent_loop_cap (fun _ => ModelResponse.toolCalls ["search_files"])
    (fun _ => ⟨["search_files"], rfl⟩)

/-- C3 counterexample: the stop flag is set before the run starts (so
before any network call is dispatched), the vision strategy is selected,
and the generation stream yields no chunks — the run then terminates with
`finished` (the completed terminal), not `stopped`, because the flag is
only polled per received chunk. -/
theorem C3_counterexample :
    OllamaWorker.run
      { stop := fun _ => true, duration := 7, buildAgent := Except.ok (),
        agentChunks := [], agentStreamExc := none, improvedQuery := "q",
        searchResults := [], filteredResults := [], scraped := [],
        ingestOk := Except.ok false, retrieved := "", ragChunks := [],
        ragStreamExc := none, visionChunks := [], visionStreamExc := none }
      { imagePath := some "/tmp/cat.png", userText := "", webSearchEnabled := false }
      = [Event.finished 7 0] := by
  decide

/-- C3 (amended): if the stop flag is set before the run dispatches any
network call, then (a) on the RAG path the run emits only the first
status update and terminates `stopped` — zero token events; (b) on the
vision path the same holds (trace exactly `[stopped]`) provided the
generation stream yields at least one chunk; (c) likewise on the agent
path provided agent construction succeeds and the stream yields at least
one chunk.  (A stream that ends before its first chunk instead terminates
`finished`, per the counterexample.) -/
theorem C3_stop_before_dispatch (env : Env) (cfg : WorkerCfg)
    (hstop : ∀ k, env.stop k = true) :
    (truthyOpt cfg.imagePath = false → cfg.webSearchEnabled = true →
      pyStrip cfg.userText ≠ "" →
      OllamaWorker.run env cfg =
        [Event.status "*Optimizing query...*", Event.stopped]) ∧
    (truthyOpt cfg.imagePath = true → env.visionChunks ≠ [] →
      OllamaWorker.run env cfg = [Event.stopped]) ∧
    (truthyOpt cfg.imagePath = false →
      (cfg.webSearchEnabled && !(pyStrip cfg.userText == "")) = false →
      env.buildAgent = Except.ok () → env.agentChunks ≠ [] →
      OllamaWorker.run env cfg = [Event.stopped]) := by
  refine ⟨fun himg hweb htxt => ?_, fun himg hch => ?_, fun himg hsel hb hch => ?_⟩
  · have hsel : (cfg.webSearchEnabled && !(pyStrip cfg.userText == "")) = true := by
      simp [hweb, htxt]
    have hrag : runRag env = ([Event.status "*Optimizing query...*"] ++
        [Event.stopped], none) := by
      unfold runRag
      rw [if_pos (hstop 0)]
    unfold OllamaWorker.run
    rw [if_neg (by simp [himg]), if_pos hsel, hrag]
    rfl
  · obtain ⟨c, rest, hcr⟩ := List.exists_cons_of_ne_nil hch
    have hvis : runVision env = ([Event.stopped], none) := by
      unfold runVision
      rw [hcr, streamLoop_cons, if_pos (hstop 0)]
    unfold OllamaWorker.run
    rw [if_pos himg, hvis]
  · obtain ⟨c, rest, hcr⟩ := List.exists_cons_of_ne_nil hch
    have hag : runAgent env 0 0 = ([Event.stopped], none) := by
      unfold runAgent
      rw [hb]
      dsimp only
      rw [hcr, agentLoop_cons, if_pos (hstop 0)]
    unfold OllamaWorker.run
    rw [if_neg (by simp [himg]), if_neg (by simp [hsel]), hag]

/-- Witness for C3 (amended): its three conclusions at concrete
environments with the stop flag set from the start. -/
theorem C3_stop_before_dispatch_witness :
    (OllamaWorker.run
      { stop := fun _ => true, duration := 3, buildAgent := Except.ok (),
        agentChunks := [⟨true, "hi", [], "ai"⟩], agentStreamExc := none,
        improvedQuery := "q", searchResults := [], filteredResults := [],
        scraped := [], ingestOk := Except.ok false, retrieved := "",
        ragChunks := [], ragStreamExc := none, visionChunks := ["v"],
        visionStreamExc := none }
      { imagePath := none, userText := "hello", webSearchEnabled := true }
      = [Event.status "*Optimizing query...*", Event.stopped]) ∧
    (OllamaWorker.run
      { stop := fun _ => true, duration := 3, buildAgent := Except.ok (),
        agentChunks := [⟨true, "hi", [], "ai"⟩], agentStreamExc := none,
        improvedQuery := "q", searchResults := [], filteredResults := [],
        scraped := [], ingestOk := Except.ok false, retrieved := "",
        ragChunks := [], ragStreamExc := none, visionChunks := ["v"],
        visionStreamExc := none }
      { imagePath := some "/tmp/cat.png", userText := "", webSearchEnabled := false }
      = [Event.stopped]) ∧
    (OllamaWorker.run
      { stop := fun _ => true, duration := 3, buildAgent := Except.ok (),
        agentChunks := [⟨true, "hi", [], "ai"⟩], agentStreamExc := none,
        improvedQuery := "q", searchResults := [], filteredResults := [],
        scraped := [], ingestOk := Except.ok false, retrieved := "",
        ragChunks := [], ragStreamExc := none, visionChunks := ["v"],
        visionStreamExc := none }
      { imagePath := none, userText := "hello", webSearchEnabled := false }
      = [Event.stopped]) := by
  refine ⟨?_, ?_, ?_⟩
  · exact (C3_stop_before_dispatch _ _ (fun _ => rfl)).1 rfl rfl (by decide)
  · exact (C3_stop_before_dispatch _ _ (fun _ => rfl)).2.1 rfl (by decide)
  · exact (C3_stop_before_dispatch _ _ (fun _ => rfl)).2.2 rfl (by decide) rfl
      (by decide)

/-- C5: in the RAG strategy, when the web search returns an empty result
set, the run emits the fallback token and restarts as the tool-augmented
(agent) strategy; when that strategy's stream then succeeds, the run ends
with the completion event `finished(duration, token_count)` produced by
`_emit_completion` — not with an error terminal and not with `stopped`. -/
theorem C5_empty_search_falls_back (env : Env) (cfg : WorkerCfg)
    (himg : truthyOpt cfg.imagePath = false)
    (hweb : cfg.webSearchEnabled = true)
    (htxt : pyStrip cfg.userText ≠ "")
    (hstop : ∀ k, env.stop k = false)
    (hsearch : env.searchResults = [])
    (hbuild : env.buildAgent = Except.ok ())
    (hexc : env.agentStreamExc = none) :
    OllamaWorker.run env cfg =
      [Event.status "*Optimizing query...*", Event.status "*Searching...*",
        Event.token "No search results found."] ++
      (env.agentChunks.map agentChunkEvents).flatten ++
      [Event.finished env.duration (env.agentChunks.countP emitsToken)] := by
  have hag : runAgent env 0 1 =
      ((env.agentChunks.map agentChunkEvents).flatten ++
        [Event.finished env.duration (env.agentChunks.countP emitsToken)], none) := by
    unfold runAgent
    rw [hbuild]
    dsimp only
    rw [agentLoop_noStop env.stop hstop env.agentChunks 0 1]
    dsimp only
    rw [hexc]
    simp
  have hrag : runRag env =
      (([Event.status "*Optimizing query...*"] ++ [Event.status "*Searching...*"]) ++
        [Event.token "No search results found."] ++
        ((env.agentChunks.map agentChunkEvents).flatten ++
          [Event.finished env.duration (env.agentChunks.countP emitsToken)]), none) := by
    unfold runRag
    rw [if_neg (by simp [hstop 0]), if_pos hsearch]
    dsimp only
    rw [hag]
  unfold OllamaWorker.run
  rw [if_neg (by simp [himg]), if_pos (by simp [hweb, htxt]), hrag]
  simp

/-- Witness for C5: a concrete environment with one answer chunk streamed
by the fallback agent. -/
theorem C5_empty_search_falls_back_witness :
    OllamaWorker.run
      { stop := fun _ => false, duration := 9, buildAgent := Except.ok (),
        agentChunks := [⟨true, "Hi there", [], "ai"⟩], agentStreamExc := none,
        improvedQuery := "q", searchResults := [], filteredResults := [],
        scraped := [], ingestOk := Except.ok false, retrieved := "",
        ragChunks := [], ragStreamExc := none, visionChunks := [],
        visionStreamExc := none }
      { imagePath := none, userText := "hello", webSearchEnabled := true } =
      [Event.status "*Optimizing query...*", Event.status "*Searching...*",
        Event.token "No search results found."] ++
      (([⟨true, "Hi there", [], "ai"⟩] : List AgentChunk).map agentChunkEvents).flatten ++
      [Event.finished 9 (([⟨true, "Hi there", [], "ai"⟩] : List AgentChunk).countP emitsToken)] :=
  C5_empty_search_falls_back _ _ rfl rfl (by decide) (fun _ => rfl) rfl rfl rfl

/-- C9: on each error path of the worker — a top-level exception escaping
a strategy body (here: the RAG ingestion raising), an agent-stream error,
a RAG-generation error, and a vision error — the `finished` terminal is
emitted with duration 0 and token count 0, regardless of the tokens
already streamed before the failure. -/
theorem C9_error_paths_zero_metrics :
    (∀ (env : Env) (cfg : WorkerCfg) (ex : String),
      truthyOpt cfg.imagePath = false → cfg.webSearchEnabled = true →
      pyStrip cfg.userText ≠ "" → (∀ k, env.stop k = false) →
      env.searchResults ≠ [] → env.scraped ≠ [] →
      env.ingestOk = Except.error ex →
      ∃ pre, OllamaWorker.run env cfg = pre ++ [Event.finished 0 0]) ∧
    (∀ (env : Env) (cfg : WorkerCfg) (ex : String),
      truthyOpt cfg.imagePath = false →
      (cfg.webSearchEnabled && !(pyStrip cfg.userText == "")) = false →
      (∀ k, env.stop k = false) → env.buildAgent = Except.ok () →
      env.agentStreamExc = some ex →
      ∃ pre, OllamaWorker.run env cfg = pre ++ [Event.finished 0 0]) ∧
    (∀ (env : Env) (cfg : WorkerCfg) (ex : String),
      truthyOpt cfg.imagePath = false → cfg.webSearchEnabled = true →
      pyStrip cfg.userText ≠ "" → (∀ k, env.stop k = false) →
      env.searchResults ≠ [] → env.scraped = [] →
      env.ragStreamExc = some ex →
      ∃ pre, OllamaWorker.run env cfg = pre ++ [Event.finished 0 0]) ∧
    (∀ (env : Env) (cfg : WorkerCfg) (ex : String),
      truthyOpt cfg.imagePath = true → (∀ k, env.stop k = false) →
      env.visionStreamExc = some ex →
      ∃ pre, OllamaWorker.run env cfg = pre ++ [Event.finished 0 0]) := by
  refine ⟨?_, ?_, ?_, ?_⟩
  · intro env cfg ex himg hweb htxt hstop hsr hscr hing
    have hctx : ragContext env = Except.error ex := by
      unfold ragContext
      rw [if_pos hscr, hing]
    have hrag : runRag env =
        ((([Event.status "*Optimizing query...*"] ++
            [Event.status "*Searching...*"]) ++
          [Event.status "*Reading content...*",
            Event.status "*Analyzing content...*"]), some ex) := by
      unfold runRag
      rw [if_neg (by simp [hstop 0]), if_neg hsr, if_neg (by simp [hstop 1]), hctx]
    unfold OllamaWorker.run
    rw [if_neg (by simp [himg]), if_pos (by simp [hweb, htxt]), hrag]
    exact ⟨[Event.status "*Optimizing query...*", Event.status "*Searching...*",
      Event.status "*Reading content...*", Event.status "*Analyzing content...*",
      Event.token ("\n\n**System Error:** " ++ ex)], by simp⟩
  · intro env cfg ex himg hsel hstop hbuild hexc
    have hag : runAgent env 0 0 =
        ((env.agentChunks.map agentChunkEvents).flatten ++
          [Event.token ("Agent Error: " ++ ex), Event.finished 0 0], none) := by
      unfold runAgent
      rw [hbuild]
      dsimp only
      rw [agentLoop_noStop env.stop hstop env.agentChunks 0 0]
      dsimp only
      rw [hexc]
    unfold OllamaWorker.run
    rw [if_neg (by simp [himg]), if_neg (by simp [hsel]), hag]
    exact ⟨(env.agentChunks.map agentChunkEvents).flatten ++
      [Event.token ("Agent Error: " ++ ex)], by simp⟩
  · intro env cfg ex himg hweb htxt hstop hsr hscr hexc
    have hctx : ragContext env = Except.ok "" := by
      unfold ragContext
      rw [if_neg (by simp [hscr])]
    have hrag : runRag env =
        (((([Event.status "*Optimizing query...*"] ++
            [Event.status "*Searching...*"]) ++
          [Event.status "*Reading content...*",
            Event.status "*Analyzing content...*"]) ++
          [Event.status "*Generating response...*"]) ++
          (env.ragChunks.map Event.token) ++
          [Event.token ("RAG Generation Error: " ++ ex), Event.finished 0 0],
          none) := by
      unfold runRag
      rw [if_neg (by simp [hstop 0]), if_neg hsr, if_neg (by simp [hstop 1]), hctx]
      dsimp only
      rw [streamLoop_noStop env.stop hstop env.ragChunks 0 2]
      dsimp only
      rw [hexc]
    unfold OllamaWorker.run
    rw [if_neg (by simp [himg]), if_pos (by simp [hweb, htxt]), hrag]
    exact ⟨[Event.status "*Optimizing query...*", Event.status "*Searching...*",
      Event.status "*Reading content...*", Event.status "*Analyzing content...*",
      Event.status "*Generating response...*"] ++
      (env.ragChunks.map Event.token) ++
      [Event.token ("RAG Generation Error: " ++ ex)], by simp⟩
  · intro env cfg ex himg hstop hexc
    have hvis : runVision env =
        ((env.visionChunks.map Event.token) ++
          [Event.token ("Vision error: " ++ ex), Event.finished 0 0], none) := by
      unfold runVision
      rw [streamLoop_noStop env.stop hstop env.visionChunks 0 0]
      dsimp only
      rw [hexc]
    unfold OllamaWorker.run
    rw [if_pos himg, hvis]
    exact ⟨(env.visionChunks.map Event.token) ++
      [Event.token ("Vision error: " ++ ex)], by simp⟩

/-- Witness for C9: each of the four error paths at a concrete
environment that had already streamed a token before failing. -/
theorem C9_error_paths_zero_metrics_witness :
    (∃ pre, OllamaWorker.run
      { stop := fun _ => false, duration := 4, buildAgent := Except.ok (),
        agentChunks := [], agentStreamExc := none, improvedQuery := "q",
        searchResults := [⟨"t", "https://a.example/x", "s"⟩],
        filteredResults := [], scraped := [("https://a.example/x", "body")],
        ingestOk := Except.error "split blew up", retrieved := "",
        ragChunks := [], ragStreamExc := none, visionChunks := [],
        visionStreamExc := none }
      { imagePath := none, userText := "hello", webSearchEnabled := true } =
      pre ++ [Event.finished 0 0]) ∧
    (∃ pre, OllamaWorker.run
      { stop := fun _ => false, duration := 4, buildAgent := Except.ok (),
        agentChunks := [⟨true, "partial answer", [], "ai"⟩],
        agentStreamExc := some "connection reset", improvedQuery := "q",
        searchResults := [], filteredResults := [], scraped := [],
        ingestOk := Except.ok false, retrieved := "", ragChunks := [],
        ragStreamExc := none, visionChunks := [], visionStreamExc := none }
      { imagePath := none, userText := "hello", webSearchEnabled := false } =
      pre ++ [Event.finished 0 0]) ∧
    (∃ pre, OllamaWorker.run
      { stop := fun _ => false, duration := 4, buildAgent := Except.ok (),
        agentChunks := [], agentStreamExc := none, improvedQuery := "q",
        searchResults := [⟨"t", "https://a.example/x", "s"⟩],
        filteredResults := [], scraped := [], ingestOk := Except.ok false,
        retrieved := "", ragChunks := ["partial"],
        ragStreamExc := some "model gone", visionChunks := [],
        visionStreamExc := none }
      { imagePath := none, userText := "hello", webSearchEnabled := true } =
      pre ++ [Event.finished 0 0]) ∧
    (∃ pre, OllamaWorker.run
      { stop := fun _ => false, duration := 4, buildAgent := Except.ok (),
        agentChunks := [], agentStreamExc := none, improvedQuery := "q",
        searchResults := [], filteredResults := [], scraped := [],
        ingestOk := Except.ok false, retrieved := "", ragChunks := [],
        ragStreamExc := none, visionChunks := ["partial"],
        visionStreamExc := some "vision model gone" }
      { imagePath := some "/tmp/cat.png", userText := "", webSearchEnabled := false } =
      pre ++ [Event.finished 0 0]) := by
  refine ⟨?_, ?_, ?_, ?_⟩
  · exact C9_error_paths_zero_metrics.1 _ _ "split blew up" rfl rfl (by decide)
      (fun _ => rfl) (by decide) (by decide) rfl
  · exact C9_error_paths_zero_metrics.2.1 _ _ "connection reset" rfl (by decide)
      (fun _ => rfl) rfl rfl
  · exact C9_error_paths_zero_metrics.2.2.1 _ _ "model gone" rfl rfl (by decide)
      (fun _ => rfl) (by decide) rfl rfl
  · exact C9_error_paths_zero_metrics.2.2.2 _ _ "vision model gone" rfl
      (fun _ => rfl) rfl

lemma pyEndsWith_pyLower_zip (s : String) (h : pyEndsWith s ".zip" = true) :
    pyEndsWith (pyLower s) ".zip" = true := by
  unfold pyEndsWith at h ⊢
  rw [decide_eq_true_iff] at h ⊢
  obtain ⟨pre, hpre⟩ := h
  refine ⟨pre.map Char.toLower, ?_⟩
  have hdata : (pyLower s).toList = s.toList.map Char.toLower := rfl
  rw [hdata, ← hpre, List.map_append]
  congr 1

/-- C6: `normalize_url` keeps a same-domain http(s) URL whose path does
not end in a binary/asset extension, reducing it to scheme://host/path
(query and fragment stripped); it rejects a URL whose host differs from
`domain`, and rejects a URL whose path ends in ".zip". -/
theorem C6_normalize_url (u : ParsedUrl) (domain : String) :
    ((u.scheme = "http" ∨ u.scheme = "https") → u.netloc = domain →
      (∀ ext ∈ skip_ext, pyEndsWith (pyLower u.path) ext = false) →
      normalize_url u domain = some (u.scheme ++ "://" ++ u.netloc ++ u.path)) ∧
    (u.netloc ≠ domain → normalize_url u domain = none) ∧
    (pyEndsWith u.path ".zip" = true → normalize_url u domain = none) := by
  refine ⟨fun hs hn hext => ?_, fun hn => ?_, fun hz => ?_⟩
  · unfold normalize_url
    have hcond : ¬(¬(u.scheme = "http" ∨ u.scheme = "https") ∨ u.netloc ≠ domain) := by
      push_neg
      exact ⟨hs, hn⟩
    rw [if_neg hcond]
    have hany : skip_ext.any (fun ext => pyEndsWith (pyLower u.path) ext) = false := by
      rw [List.any_eq_false]
      intro x hx
      simp [hext x hx]
    rw [if_neg (by simp [hany])]
  · unfold normalize_url
    rw [if_pos (Or.inr hn)]
  · unfold normalize_url
    by_cases hc : ¬(u.scheme = "http" ∨ u.scheme = "https") ∨ u.netloc ≠ domain
    · rw [if_pos hc]
    · rw [if_neg hc, if_pos ?_]
      rw [List.any_eq_true]
      exact ⟨".zip", by decide, pyEndsWith_pyLower_zip _ hz⟩

/-- Witness for C6: a same-domain HTML URL with a query string, a
cross-domain URL, and a same-domain .zip URL. -/
theorem C6_normalize_url_witness :
    normalize_url ⟨"https", "example.com", "/page", "param=1", ""⟩ "example.com" =
      some ("https" ++ "://" ++ "example.com" ++ "/page") ∧
    normalize_url ⟨"https", "other.com", "/page", "", ""⟩ "example.com" = none ∧
    normalize_url ⟨"https", "example.com", "/file.zip", "", ""⟩ "example.com" = none :=
  ⟨(C6_normalize_url ⟨"https", "example.com", "/page", "param=1", ""⟩
      "example.com").1 (Or.inr rfl) rfl (by decide),
    (C6_normalize_url ⟨"https", "other.com", "/page", "", ""⟩
      "example.com").2.1 (by decide),
    (C6_normalize_url ⟨"https", "example.com", "/file.zip", "", ""⟩
      "example.com").2.2 (by decide)⟩

lemma scanFiles_cons (matcher : String → Bool) (maxr : Nat) (f : FileEntry)
    (rest : List FileEntry) (acc : List String) (n : Nat) :
    scanFiles matcher maxr (f :: rest) acc n =
      if f.isFile then
        (if maxr ≤ acc.length then (acc, n + 1)
         else match f.lines with
           | .error _ => scanFiles matcher maxr rest acc (n + 1)
           | .ok ls =>
             scanFiles matcher maxr rest (scanLines matcher f.name maxr ls 1 acc) (n + 1))
      else scanFiles matcher maxr rest acc n := rfl

lemma scanFiles_allUnreadable (matcher : String → Bool) (maxr : Nat)
    (entries : List FileEntry)
    (hun : ∀ f ∈ entries, ∃ er, f.lines = Except.error er) :
    ∀ n, (scanFiles matcher maxr entries [] n).1 = [] := by
  induction entries with
  | nil => intro n; rfl
  | cons f rest ih =>
    intro n
    have ih2 := ih (fun g hg => hun g (List.mem_cons_of_mem f hg))
    rw [scanFiles_cons]
    by_cases hf : f.isFile = true
    · rw [if_pos hf]
      by_cases hm : maxr ≤ ([] : List String).length
      · rw [if_pos hm]
      · rw [if_neg hm]
        obtain ⟨er, he⟩ := hun f (List.mem_cons_self f rest)
        rw [he]
        exact ih2 (n + 1)
    · rw [if_neg hf]
      exact ih2 n

/-- C7: `search_files` is a total function of its oracle and arguments —
every failure mode becomes a returned message string: a path whose
resolution raises, an invalid directory, an empty (stripped) pattern, a
valid empty directory (no matches — for every regex oracle value,
including `none`, the invalid-regex literal fallback), and a directory
in which every file is unreadable, all yield the documented strings. -/
theorem C7_search_files_total :
    (∀ (fs : FsOracle) (pattern path fp : String) (maxr : Nat) (e : String),
      fs.resolve path = Except.error e →
      search_files fs pattern path fp maxr = "Error during search: " ++ e) ∧
    (∀ (fs : FsOracle) (pattern path fp : String) (maxr : Nat) (sp : String),
      fs.resolve path = Except.ok sp → fs.isDir sp = false →
      search_files fs pattern path fp maxr =
        "Error: \x27" ++ path ++ "\x27 is not a valid directory.") ∧
    (∀ (fs : FsOracle) (pattern path fp : String) (maxr : Nat) (sp : String),
      fs.resolve path = Except.ok sp → fs.isDir sp = true →
      pyStrip pattern = "" →
      search_files fs pattern path fp maxr =
        "Error: Search pattern cannot be empty.") ∧
    (∀ (fs : FsOracle) (pattern path fp : String) (maxr : Nat) (sp : String),
      fs.resolve path = Except.ok sp → fs.isDir sp = true →
      pyStrip pattern ≠ "" → fs.rglob sp fp = [] →
      search_files fs pattern path fp maxr =
        "No matches found for pattern \x27" ++ pattern ++ "\x27 in " ++ sp) ∧
    (∀ (fs : FsOracle) (pattern path fp : String) (maxr : Nat) (sp : String),
      fs.resolve path = Except.ok sp → fs.isDir sp = true →
      pyStrip pattern ≠ "" →
      (∀ f ∈ fs.rglob sp fp, ∃ er, f.lines = Except.error er) →
      search_files fs pattern path fp maxr =
        "No matches found for pattern \x27" ++ pattern ++ "\x27 in " ++ sp) := by
  refine ⟨?_, ?_, ?_, ?_, ?_⟩
  · intro fs pattern path fp maxr e hres
    unfold search_files
    rw [hres]
  · intro fs pattern path fp maxr sp hres hdir
    unfold search_files
    rw [hres]
    dsimp only
    rw [if_pos (by simp [hdir])]
  · intro fs pattern path fp maxr sp hres hdir hpat
    unfold search_files
    rw [hres]
    dsimp only
    rw [if_neg (by simp [hdir]), if_pos hpat]
  · intro fs pattern path fp maxr sp hres hdir hpat hrg
    unfold search_files
    rw [hres]
    dsimp only
    rw [if_neg (by simp [hdir]), if_neg hpat, hrg]
    simp [scanFiles]
  · intro fs pattern path fp maxr sp hres hdir hpat hun
    unfold search_files
    rw [hres]
    dsimp only
    rw [if_neg (by simp [hdir]), if_neg hpat]
    rw [if_pos (scanFiles_allUnreadable _ maxr _ hun 0)]

/-- Witness for C7: the five failure modes at concrete oracles —
including the claim's scenario of a missing pattern in a valid empty
directory. -/
theorem C7_search_files_total_witness :
    search_files ⟨fun _ => Except.error "boom", fun _ => true, fun _ _ => [],
        fun _ => none⟩ "x" "~nouser" "*" 20 = "Error during search: " ++ "boom" ∧
    search_files ⟨fun _ => Except.ok "/etc/passwd", fun _ => false, fun _ _ => [],
        fun _ => none⟩ "x" "/etc/passwd" "*" 20 =
      "Error: \x27" ++ "/etc/passwd" ++ "\x27 is not a valid directory." ∧
    search_files ⟨fun _ => Except.ok "/tmp/empty", fun _ => true, fun _ _ => [],
        fun _ => none⟩ "  " "/tmp/empty" "*" 20 =
      "Error: Search pattern cannot be empty." ∧
    search_files ⟨fun _ => Except.ok "/tmp/empty", fun _ => true, fun _ _ => [],
        fun _ => none⟩ "missing_pattern_xyz" "/tmp/empty" "*" 20 =
      "No matches found for pattern \x27" ++ "missing_pattern_xyz" ++ "\x27 in " ++
        "/tmp/empty" ∧
    search_files ⟨fun _ => Except.ok "/tmp/locked", fun _ => true,
        fun _ _ => [⟨"secret.txt", true, Except.error "Permission denied"⟩],
        fun _ => some (fun _ => true)⟩ "x" "/tmp/locked" "*" 20 =
      "No matches found for pattern \x27" ++ "x" ++ "\x27 in " ++ "/tmp/locked" :=
  ⟨C7_search_files_total.1 _ "x" "~nouser" "*" 20 "boom" rfl,
    C7_search_files_total.2.1 _ "x" "/etc/passwd" "*" 20 "/etc/passwd" rfl rfl,
    C7_search_files_total.2.2.1 _ "  " "/tmp/empty" "*" 20 "/tmp/empty" rfl rfl
      (by decide),
    C7_search_files_total.2.2.2.1 _ "missing_pattern_xyz" "/tmp/empty" "*" 20
      "/tmp/empty" rfl rfl (by decide) rfl,
    C7_search_files_total.2.2.2.2 _ "x" "/tmp/locked" "*" 20 "/tmp/locked" rfl rfl
      (by decide)
      (fun f hf => by
        rcases List.mem_singleton.1 hf with rfl
        exact ⟨"Permission denied", rfl⟩)⟩

/-- C8: `RAGManager.ingest_text` on an empty input mapping returns false
without raising and leaves the store unbuilt, so a subsequent
`RAGManager.retrieve` on that never-built index returns the empty
string — for every oracle and query. -/
theorem C8_ingest_empty_retrieve_empty (VS : Type) (o : RagOracle VS) (q : String) :
    (RAGManager.ingest_text o (RAGManager.mk0 VS) []).1 = false ∧
    RAGManager.retrieve o (RAGManager.ingest_text o (RAGManager.mk0 VS) []).2 q
      = "" := by
  constructor
  · rfl
  · rfl

/-- C10: `execute_tool` turns only unknown tool names into the returned
string "Unknown tool: <name>"; a known tool name called with a keyword
argument outside the tool's declared parameters raises TypeError before
the tool body runs (even though `search_files`/`find_files` themselves
convert every internal failure to a string — see C7). -/
theorem C10_execute_tool :
    (∀ (fs : FsOracle) (kwargs : List (String × PyVal)) (name : String),
      name ≠ "search_files" → name ≠ "find_files" →
      execute_tool fs name kwargs = Except.ok ("Unknown tool: " ++ name)) ∧
    (∀ (fs : FsOracle) (v : PyVal), ∃ msg,
      execute_tool fs "search_files"
        [("pattern", PyVal.str "x"), ("bogus_arg", v)] =
        Except.error (PyError.typeError msg)) ∧
    (∀ (fs : FsOracle) (v : PyVal), ∃ msg,
      execute_tool fs "find_files"
        [("name_pattern", PyVal.str "x"), ("bogus_arg", v)] =
        Except.error (PyError.typeError msg)) := by
  refine ⟨?_, ?_, ?_⟩
  · intro fs kwargs name h1 h2
    unfold execute_tool
    rw [if_neg h1, if_neg h2]
  · intro fs v
    exact ⟨"search_files() got an unexpected keyword argument", rfl⟩
  · intro fs v
    exact ⟨"find_files() got an unexpected keyword argument", rfl⟩

/-- Witness for C10: an unknown tool name and the two known tools called
with an undeclared keyword argument. -/
theorem C10_execute_tool_witness :
    execute_tool ⟨fun _ => Except.ok "/tmp", fun _ => true, fun _ _ => [],
        fun _ => none⟩ "nonexistent_tool" [] =
      Except.ok ("Unknown tool: " ++ "nonexistent_tool") ∧
    (∃ msg, execute_tool ⟨fun _ => Except.ok "/tmp", fun _ => true, fun _ _ => [],
        fun _ => none⟩ "search_files"
        [("pattern", PyVal.str "x"), ("bogus_arg", PyVal.int 3)] =
      Except.error (PyError.typeError msg)) ∧
    (∃ msg, execute_tool ⟨fun _ => Except.ok "/tmp", fun _ => true, fun _ _ => [],
        fun _ => none⟩ "find_files"
        [("name_pattern", PyVal.str "x"), ("bogus_arg", PyVal.int 3)] =
      Except.error (PyError.typeError msg)) :=
  ⟨C10_execute_tool.1 _ [] "nonexistent_tool" (by decide) (by decide),
    C10_execute_tool.2.1 _ (PyVal.int 3),
    C10_execute_tool.2.2 _ (PyVal.int 3)⟩

/-- C4 counterexample: with a fresh transcript holding the single system
Turn "A", accepting the settings dialog with a new system prompt "B"
rewrites that Turn in place — `_open_settings` is an operation other than
`new_chat` whose result does not extend the previous transcript, so the
transcript is not strictly append-only outside `new_chat`. -/
theorem C4_counterexample :
    ¬ ∃ s, open_settings false true "B" [⟨"system", "A"⟩] =
      [(⟨"system", "A"⟩ : Turn)] ++ s := by
  rintro ⟨s, hs⟩
  have hv : open_settings false true "B" [⟨"system", "A"⟩] =
      [(⟨"system", "B"⟩ : Turn)] := rfl
  rw [hv] at hs
  rw [List.singleton_append] at hs
  injection hs with h1 h2
  injection h1 with hr hc
  exact absurd hc (by decide)

/-- C4 (amended): the transcript operations are append-only except for
`new_chat` and for `_open_settings`, which — only when the dialog is
accepted and the transcript still holds at most one Turn — rewrites the
system Turn's content in place; in every other case `_open_settings`
leaves the transcript unchanged, and `new_chat` (when no run is active)
replaces it with a single fresh system Turn carrying the current system
prompt. -/
theorem C4_transcript_append_only :
    (∀ (isP : Bool) (raw : String) (img : Bool) (h : List Turn),
      ∃ s, send_message isP raw img h = h ++ s) ∧
    (∀ (buf : String) (h : List Turn),
      finalize_stream buf h = h ++ [⟨"assistant", buf⟩]) ∧
    (∀ (buf : String) (h : List Turn),
      ∃ s, on_worker_stopped buf h = h ++ s) ∧
    (∀ (isP acc : Bool) (p : String) (h : List Turn),
      isP = true ∨ acc = false ∨ 1 < h.length →
      open_settings isP acc p h = h) ∧
    (∀ (p : String) (t : Turn),
      open_settings false true p [t] = [{ t with content := p }]) ∧
    (∀ (p : String) (h : List Turn), new_chat false p h = [⟨"system", p⟩]) := by
  refine ⟨?_, ?_, ?_, ?_, ?_, ?_⟩
  · intro isP raw img h
    unfold send_message
    dsimp only
    by_cases hc : (pyStrip raw = "" ∧ ¬ img = true) ∨ isP = true
    · exact ⟨[], by rw [if_pos hc, List.append_nil]⟩
    · exact ⟨[⟨"user", pyStrip raw⟩], by rw [if_neg hc]⟩
  · intro buf h
    rfl
  · intro buf h
    unfold on_worker_stopped
    by_cases hb : buf ≠ ""
    · exact ⟨[⟨"assistant", buf⟩], by rw [if_pos hb]⟩
    · exact ⟨[], by rw [if_neg hb, List.append_nil]⟩
  · intro isP acc p h hcase
    unfold open_settings
    by_cases hP : isP = true
    · rw [if_pos hP]
    · rw [if_neg hP]
      by_cases hA : acc = true
      · rw [if_pos hA]
        have h3 : 1 < h.length := by
          rcases hcase with h1 | h2 | h3
          · exact absurd h1 hP
          · rw [h2] at hA; cases hA
          · exact h3
        rw [if_neg (by omega)]
      · rw [if_neg hA]
  · intro p t
    rfl
  · intro p h
    rfl

/-- Witness for C4 (amended): the transcript operations at concrete
transcripts. -/
theorem C4_transcript_append_only_witness :
    (∃ s, send_message false " hi " false
      [⟨"system", "S"⟩] = [(⟨"system", "S"⟩ : Turn)] ++ s) ∧
    finalize_stream "ok" [⟨"system", "S"⟩] =
      [(⟨"system", "S"⟩ : Turn)] ++ [⟨"assistant", "ok"⟩] ∧
    (∃ s, on_worker_stopped "partial" [⟨"system", "S"⟩] =
      [(⟨"system", "S"⟩ : Turn)] ++ s) ∧
    open_settings false true "P" [⟨"system", "S"⟩, ⟨"user", "u"⟩] =
      [⟨"system", "S"⟩, ⟨"user", "u"⟩] ∧
    open_settings false true "P" [⟨"system", "S"⟩] = [⟨"system", "P"⟩] ∧
    new_chat false "P" [⟨"system", "S"⟩, ⟨"user", "u"⟩] = [⟨"system", "P"⟩] :=
  ⟨C4_transcript_append_only.1 false " hi " false [⟨"system", "S"⟩],
    C4_transcript_append_only.2.1 "ok" [⟨"system", "S"⟩],
    C4_transcript_append_only.2.2.1 "partial" [⟨"system", "S"⟩],
    C4_transcript_append_only.2.2.2.1 false true "P"
      [⟨"system", "S"⟩, ⟨"user", "u"⟩] (Or.inr (Or.inr (by decide))),
    C4_transcript_append_only.2.2.2.2.1 "P" ⟨"system", "S"⟩,
    C4_transcript_append_only.2.2.2.2.2 "P" [⟨"system", "S"⟩, ⟨"user", "u"⟩]⟩

end Kratt
